import Mathlib

/-!
Shallow embedding of the fixture generator and schema validator of the
Fantsy_Game tooling (`src/tools/python/database/database_seeder.py` and
`src/tools/python/testing/test_database.py`).

Modelling conventions, used consistently below:
* The SQLite store is a record of row lists; an `INSERT` appends a row.
  The generated primary ids (`uuid` hex fragments in the source) are
  modelled as fresh numeric ids (the row count at insertion time), which
  captures the source's intent that generated ids are unique and opaque.
* Randomness is explicit: every call of `random.randint(a, b)` is
  `randint a b s` for a caller-supplied seed `s`, every
  `random.choice(l)` / `ORDER BY RANDOM() LIMIT 1` is `randChoice l s`,
  and every `random.sample(l, k)` / `ORDER BY RANDOM() LIMIT k` is
  `randSample l k s`.  `randChoice` on an empty list is `none`: for the
  SQL `fetchone` path this models the empty result, for the Python
  `random.choice` path it models the `IndexError` the source raises.
  Theorems quantify over all seeds.
* `random.uniform` draws (the two critical-hit floats) are carried as
  their raw seed; no claim mentions them.
* Python `str.format` template strings are embedded as token lists
  (`Tok`): a literal segment or one of the four named placeholders.
* JSON payloads are embedded as `JVal` (string / integer / boolean)
  key-value lists; Python `str(n)` is `Nat.repr`/`toString`.
* `datetime` values are integer seconds; `timedelta(days = d)` is
  `86400 * d` and `timedelta(hours = h)` is `3600 * h`.
-/

/-- Embeds `random.randint(a, b)` (closed interval) for seed `s`. -/
def randint (a b s : Nat) : Nat := a + s % (b + 1 - a)

/-- Embeds `random.choice(l)` (and `ORDER BY RANDOM() LIMIT 1`): `none`
on an empty list, where the Python call raises `IndexError`. -/
def randChoice {α : Type} (l : List α) (s : Nat) : Option α :=
  l[s % l.length]?

/-- Rotation of a list, the permutation model underlying `randSample`. -/
def listRotate {α : Type} (l : List α) (n : Nat) : List α :=
  l.drop (n % l.length) ++ l.take (n % l.length)

/-- Embeds `random.sample(l, k)` (and `ORDER BY RANDOM() LIMIT k`): a
seed-selected rotation of the pool, truncated to `k` elements. -/
def randSample {α : Type} (l : List α) (k s : Nat) : List α :=
  (listRotate l s).take k

/-- Embeds the Python substring test `pat in s`. -/
def strContains (s pat : String) : Bool :=
  decide (pat.data <:+: s.data)

/-- A JSON scalar, as stored in the seeded `objectives` / `progress`
payloads. -/
inductive JVal : Type
  | str : String → JVal
  | num : Int → JVal
  | bool : Bool → JVal
deriving DecidableEq, Repr

/-- One token of a Python format string: a literal segment or one of the
four named placeholders used by the seeder's templates. -/
inductive Tok : Type
  | lit : String → Tok
  | enemy : Tok
  | location : Tok
  | item : Tok
  | count : Tok
deriving DecidableEq, Repr

/-- Renders one token against concrete drawn values (`str.format`). -/
def renderTok (e l it : String) (c : Nat) : Tok → String
  | .lit s => s
  | .enemy => e
  | .location => l
  | .item => it
  | .count => toString c

/-- Renders a whole format string against concrete drawn values. -/
def render (ts : List Tok) (e l it : String) (c : Nat) : String :=
  String.join (ts.map (renderTok e l it c))

/-- A row of `characters` (the `class` column is `cls`, `class` being
reserved in Lean; `critical_rate`/`critical_damage` carry the raw
`random.uniform` seed). -/
structure Character where
  id : Nat
  name : String
  cls : String
  level : Nat
  experience : Nat
  health : Nat
  max_health : Nat
  mana : Nat
  max_mana : Nat
  attack : Nat
  defense : Nat
  speed : Nat
  critical_rate : Nat
  critical_damage : Nat
  is_player : Bool
deriving DecidableEq, Repr

/-- A row of the reference table `skills` (the columns the seeder
reads). -/
structure Skill where
  id : String
  class_requirement : String
  level_requirement : Nat
deriving DecidableEq, Repr

/-- A row of `character_skills`. -/
structure CharacterSkill where
  character_id : Nat
  skill_id : String
  skill_level : Nat
  is_equipped : Bool
deriving DecidableEq, Repr

/-- A row of the reference table `equipment` (the columns the seeder
reads). -/
structure EquipmentRow where
  id : String
  slot : String
  level_requirement : Nat
  class_requirement : Option String
deriving DecidableEq, Repr

/-- A row of `character_equipment`. -/
structure CharacterEquipment where
  character_id : Nat
  equipment_id : String
  slot : String
  is_equipped : Bool
  durability : Nat
  enchant_level : Nat
deriving DecidableEq, Repr

/-- A row of the reference table `items`. -/
structure ItemRow where
  id : String
  type : String
deriving DecidableEq, Repr

/-- A row of `character_inventory`. -/
structure CharacterInventory where
  character_id : Nat
  item_id : String
  quantity : Nat
  slot_index : Nat
deriving DecidableEq, Repr

/-- A row of `statistics`. -/
structure StatRow where
  character_id : Nat
  stat_key : String
  stat_value : Nat
  stat_type : String
deriving DecidableEq, Repr

/-- A row of `quests`; `objectives` is the decoded JSON list of
objective dictionaries, `rewards` is split into its three fields. -/
structure Quest where
  id : Nat
  title : String
  description : String
  qtype : String
  chapter : Nat
  level_requirement : Nat
  objectives : List (List (String × JVal))
  rewards_experience : Nat
  rewards_gold : Nat
  rewards_items : List String
deriving DecidableEq, Repr

/-- A row of `levels` (only the id is read back by the seeder). -/
structure LevelRow where
  id : Nat
deriving DecidableEq, Repr

/-- A row of `battle_records`. -/
structure BattleRecord where
  character_id : Nat
  level_id : Option Nat
  battle_type : String
  opponent_type : String
  result : String
  duration : Nat
  damage_dealt : Nat
  damage_taken : Nat
  skills_used : List String
  combo_max : Nat
  experience_gained : Nat
  items_dropped : List String
deriving DecidableEq, Repr

/-- A row of `character_quests`; times are integer seconds. -/
structure QuestProgressRow where
  character_id : Nat
  quest_id : Nat
  status : String
  progress : List (String × JVal)
  start_time : Option Int
  complete_time : Option Int
deriving DecidableEq, Repr

/-- A row of `character_level_progress`. -/
structure LevelProgressRow where
  character_id : Nat
  level_id : Nat
  status : String
  completion_time : Nat
  score : Nat
  stars : Nat
  attempts : Nat
  best_time : Nat
deriving DecidableEq, Repr

/-- A row of `save_data`; the two JSON documents are flattened into
their generated fields. -/
structure SaveSlot where
  slot_id : String
  player_name : String
  character_id : Nat
  chapter : Nat
  play_time : Nat
  current_level : String
  gold : Nat
  volume : Nat
  graphics_quality : String
  sound_volume : Nat
  music_volume : Nat
deriving DecidableEq, Repr

/-- The relational store: one list of rows per table the modelled
generators touch. -/
structure Store where
  characters : List Character
  skills : List Skill
  equipment : List EquipmentRow
  items : List ItemRow
  character_skills : List CharacterSkill
  character_equipment : List CharacterEquipment
  character_inventory : List CharacterInventory
  statistics : List StatRow
  quests : List Quest
  levels : List LevelRow
  battle_records : List BattleRecord
  character_quests : List QuestProgressRow
  character_level_progress : List LevelProgressRow
  save_data : List SaveSlot
deriving Repr

/-- The `classes` vocabulary of `generate_sample_characters`. -/
def classesVocab : List String := ["warrior", "mage", "assassin"]

/-- The `names` vocabulary of `generate_sample_characters`. -/
def namesVocab : List String :=
  ["阿尔文", "贝拉", "卡洛斯", "黛安娜", "艾瑞克",
   "菲奥娜", "加布里埃尔", "海伦娜", "伊万", "朱莉娅",
   "凯文", "露娜", "马库斯", "娜塔莎", "奥利弗",
   "佩妮", "昆汀", "罗莎", "塞巴斯蒂安", "特蕾莎"]

/-- The seeds one loop iteration of `generate_sample_characters`
consumes (one per `random.*` call, indexed where the call sits in an
inner loop). -/
structure CharDraw where
  nameS : Nat
  classS : Nat
  levelS : Nat
  expS : Nat
  healthS : Nat
  manaS : Nat
  attackS : Nat
  defenseS : Nat
  speedS : Nat
  critRateS : Nat
  critDmgS : Nat
  skillLevelS : Nat → Nat
  skillEquipS : Nat → Bool
  equipPickS : Nat → Nat
  equipDurS : Nat → Nat
  equipEnchS : Nat → Nat
  itemSampleS : Nat
  itemQtyS : Nat → Nat
  statS : Nat → Nat

/-- The class drawn for one character (`random.choice(classes)`). -/
def drawCls (d : CharDraw) : String :=
  (randChoice classesVocab d.classS).getD "warrior"

/-- The level drawn for one character (`random.randint(1, 20)`). -/
def drawLevel (d : CharDraw) : Nat := randint 1 20 d.levelS

/-- Class-banded health draw (the `if class_type == ...` chain). -/
def drawHealth (cls : String) (s : Nat) : Nat :=
  if cls = "warrior" then randint 120 150 s
  else if cls = "mage" then randint 80 100 s
  else randint 90 110 s

/-- Class-banded mana draw. -/
def drawMana (cls : String) (s : Nat) : Nat :=
  if cls = "warrior" then randint 30 50 s
  else if cls = "mage" then randint 80 120 s
  else randint 40 60 s

/-- Class-banded attack draw. -/
def drawAttack (cls : String) (s : Nat) : Nat :=
  if cls = "warrior" then randint 20 25 s
  else if cls = "mage" then randint 10 15 s
  else randint 25 30 s

/-- Class-banded defense draw. -/
def drawDefense (cls : String) (s : Nat) : Nat :=
  if cls = "warrior" then randint 15 20 s
  else if cls = "mage" then randint 8 12 s
  else randint 10 15 s

/-- One character row as built by the body of the loop in
`generate_sample_characters`: `cid` is the fresh generated id, `i` the
loop index; `is_player` is the source's `i == 0`. -/
def mkCharacter (cid : Nat) (i : Nat) (d : CharDraw) : Character :=
  let cls := drawCls d
  let level := drawLevel d
  let health := drawHealth cls d.healthS
  let mana := drawMana cls d.manaS
  { id := cid
    name := (randChoice namesVocab d.nameS).getD ""
    cls := cls
    level := level
    experience := randint 0 (level * 100) d.expS
    health := health
    max_health := health
    mana := mana
    max_mana := mana
    attack := drawAttack cls d.attackS
    defense := drawDefense cls d.defenseS
    speed := randint 5 8 d.speedS
    critical_rate := d.critRateS
    critical_damage := d.critDmgS
    is_player := i == 0 }

/-- The eligibility query of `_add_skills_to_character`:
`SELECT id FROM skills WHERE class_requirement = ? AND
level_requirement <= ?`. -/
def eligibleSkills (skills : List Skill) (cls : String) (level : Nat) :
    List Skill :=
  skills.filter fun sk =>
    sk.class_requirement == cls && decide (sk.level_requirement ≤ level)

/-- Embeds `_add_skills_to_character`: the first `min(5, len(skills))`
eligible skills each get a `character_skills` row with a drawn level and
equipped flag. -/
def addSkills (skills : List Skill) (cid : Nat) (cls : String)
    (level : Nat) (lvS : Nat → Nat) (eqS : Nat → Bool) :
    List CharacterSkill :=
  let elig := eligibleSkills skills cls level
  (elig.take (min 5 elig.length)).enum.map fun p =>
    { character_id := cid
      skill_id := p.2.id
      skill_level := randint 1 (min (level / 2 + 1) 10) (lvS p.1)
      is_equipped := eqS p.1 }

/-- The fixed slot list of `_add_equipment_to_character`. -/
def equipmentSlots : List String := ["weapon", "chest", "ring"]

/-- The eligibility query of `_add_equipment_to_character`:
`SELECT id FROM equipment WHERE slot = ? AND level_requirement <= ? AND
(class_requirement IS NULL OR class_requirement = ?)`. -/
def eligibleEquipment (eqs : List EquipmentRow) (slot : String)
    (level : Nat) (cls : String) : List EquipmentRow :=
  eqs.filter fun e =>
    e.slot == slot && decide (e.level_requirement ≤ level) &&
      (e.class_requirement == none || e.class_requirement == some cls)

/-- Embeds `_add_equipment_to_character`: per slot, one random eligible
item (`ORDER BY RANDOM() LIMIT 1`); an empty eligible set skips the
slot. -/
def addEquipment (eqs : List EquipmentRow) (cid : Nat) (cls : String)
    (level : Nat) (pickS durS enchS : Nat → Nat) :
    List CharacterEquipment :=
  equipmentSlots.enum.filterMap fun p =>
    match randChoice (eligibleEquipment eqs p.2 level cls) (pickS p.1) with
    | none => none
    | some e =>
        some { character_id := cid
               equipment_id := e.id
               slot := p.2
               is_equipped := true
               durability := randint 80 100 (durS p.1)
               enchant_level := randint 0 3 (enchS p.1) }

/-- Embeds `_add_items_to_character`: a random 5-sample of consumables
and materials, with sequential slot indices. -/
def addItems (items : List ItemRow) (cid : Nat) (sampleS : Nat)
    (qtyS : Nat → Nat) : List CharacterInventory :=
  let pool := items.filter fun it =>
    it.type == "consumable" || it.type == "material"
  (randSample pool 5 sampleS).enum.map fun p =>
    { character_id := cid
      item_id := p.2.id
      quantity := randint 1 10 (qtyS p.1)
      slot_index := p.1 }

/-- The fixed statistics keys and bands of
`_add_statistics_to_character`. -/
def statSpecs : List (String × Nat × Nat) :=
  [("total_battles", 10, 100), ("battles_won", 5, 80),
   ("total_experience_gained", 1000, 10000), ("max_combo", 1, 15),
   ("items_collected", 20, 200), ("quests_completed", 5, 30),
   ("levels_completed", 5, 25)]

/-- Embeds `_add_statistics_to_character`. -/
def addStatistics (cid : Nat) (sS : Nat → Nat) : List StatRow :=
  statSpecs.enum.map fun p =>
    { character_id := cid
      stat_key := p.2.1
      stat_value := randint p.2.2.1 p.2.2.2 (sS p.1)
      stat_type := "integer" }

/-- One iteration of the loop in `generate_sample_characters`: insert
the character row (fresh id = current row count) and its dependent
skill, equipment, inventory and statistics rows. -/
def genCharacterStep (st : Store) (i : Nat) (d : CharDraw) : Store :=
  let c := mkCharacter st.characters.length i d
  { st with
    characters := st.characters ++ [c]
    character_skills := st.character_skills ++
      addSkills st.skills c.id c.cls c.level d.skillLevelS d.skillEquipS
    character_equipment := st.character_equipment ++
      addEquipment st.equipment c.id c.cls c.level d.equipPickS
        d.equipDurS d.equipEnchS
    character_inventory := st.character_inventory ++
      addItems st.items c.id d.itemSampleS d.itemQtyS
    statistics := st.statistics ++ addStatistics c.id d.statS }

/-- Embeds `generate_sample_characters(count)`: `count` loop iterations
over per-iteration draws `d`. -/
def generate_sample_characters (st : Store) (count : Nat)
    (d : Nat → CharDraw) : Store :=
  (List.range count).foldl (fun s i => genCharacterStep s i (d i)) st

/-- The quest template table of `generate_sample_quests`, with the
format strings embedded as token lists. -/
structure QuestTemplate where
  title : List Tok
  description : List Tok
  qtype : String
  objectives : List (List (String × List Tok))
deriving DecidableEq, Repr

/-- The three quest templates of `generate_sample_quests` (kill /
collect / explore). -/
def questTemplates : List QuestTemplate :=
  [{ title := [.lit "击败", .enemy]
     description := [.lit "在", .location, .lit "击败", .count,
                     .lit "个", .enemy]
     qtype := "main"
     objectives := [[("type", [.lit "kill"]), ("target", [.enemy]),
                     ("count", [.count])]] },
   { title := [.lit "收集", .item]
     description := [.lit "收集", .count, .lit "个", .item]
     qtype := "side"
     objectives := [[("type", [.lit "collect"]), ("item", [.item]),
                     ("count", [.count])]] },
   { title := [.lit "探索", .location]
     description := [.lit "探索", .location, .lit "区域"]
     qtype := "exploration"
     objectives := [[("type", [.lit "reach"]),
                     ("location", [.location])]] }]

/-- The `enemies` vocabulary of `generate_sample_quests`. -/
def questEnemiesVocab : List String :=
  ["哥布林", "狼", "强盗", "骷髅", "巨魔", "龙"]

/-- The `locations` vocabulary of `generate_sample_quests`. -/
def questLocationsVocab : List String :=
  ["森林", "洞穴", "城堡", "村庄", "沙漠", "雪山"]

/-- The `items` vocabulary of `generate_sample_quests`. -/
def questItemsVocab : List String :=
  ["铁矿", "魔法水晶", "毒液精华", "火焰精华", "金币", "宝石"]

/-- The seeds one loop iteration of `generate_sample_quests`
consumes. -/
structure QuestDraw where
  templS : Nat
  enemyS : Nat
  locS : Nat
  itemS : Nat
  countS : Nat
  chapterS : Nat
  lvlReqS : Nat
  expS : Nat
  goldS : Nat
  rewardKS : Nat
  rewardSampleS : Nat
deriving Repr

/-- Substitutes one objective dictionary of a template: every value in
the source templates is a format string, so every stored value is the
rendered string (`obj_copy[key] = value.format(...)`). -/
def substObjective (e l it : String) (c : Nat)
    (entry : List (String × List Tok)) : List (String × JVal) :=
  entry.map fun kv => (kv.1, JVal.str (render kv.2 e l it c))

/-- One quest row as built by the body of the loop in
`generate_sample_quests` (`qid` is the fresh generated id). -/
def mkQuest (qid : Nat) (dr : QuestDraw) : Quest :=
  let template := (randChoice questTemplates dr.templS).getD
    { title := [], description := [], qtype := "", objectives := [] }
  let enemy := (randChoice questEnemiesVocab dr.enemyS).getD ""
  let location := (randChoice questLocationsVocab dr.locS).getD ""
  let item := (randChoice questItemsVocab dr.itemS).getD ""
  let cnt := randint 1 5 dr.countS
  { id := qid
    title := render template.title enemy location item cnt
    description := render template.description enemy location item cnt
    qtype := template.qtype
    chapter := randint 1 6 dr.chapterS
    level_requirement := randint 1 20 dr.lvlReqS
    objectives := template.objectives.map
      (substObjective enemy location item cnt)
    rewards_experience := randint 50 500 dr.expS
    rewards_gold := randint 20 200 dr.goldS
    rewards_items :=
      randSample questItemsVocab (randint 0 2 dr.rewardKS)
        dr.rewardSampleS }

/-- Embeds `generate_sample_quests(count)`. -/
def generate_sample_quests (st : Store) (count : Nat)
    (d : Nat → QuestDraw) : Store :=
  { st with
    quests := st.quests ++ (List.range count).map fun i =>
      mkQuest (st.quests.length + i) (d i) }

/-- Sequences fallible per-row builders as the Python loop does: the
first raised exception aborts the whole generator call. -/
def exceptMapList {α β : Type} (f : α → Except String β) :
    List α → Except String (List β)
  | [] => .ok []
  | a :: as =>
    match f a with
    | .error e => .error e
    | .ok b =>
      match exceptMapList f as with
      | .error e => .error e
      | .ok bs => .ok (b :: bs)

/-- `Except.isOk` spelled out for witnesses. -/
def exceptIsOk {α : Type} : Except String α → Bool
  | .ok _ => true
  | .error _ => false

/-- The `battle_types` vocabulary of
`generate_sample_battle_records`. -/
def battleTypesVocab : List String := ["level", "arena", "boss", "pvp"]

/-- The `results` vocabulary of `generate_sample_battle_records`. -/
def battleResultsVocab : List String := ["victory", "defeat", "draw"]

/-- The `opponent_types` vocabulary of
`generate_sample_battle_records`. -/
def opponentTypesVocab : List String :=
  ["goblin", "wolf", "bandit", "skeleton", "boss", "player"]

/-- The skill-name vocabulary sampled into `skills_used`. -/
def skillsUsedVocab : List String :=
  ["basic_attack", "heavy_strike", "fireball", "stealth"]

/-- The item vocabulary sampled into `items_dropped`. -/
def itemsDroppedVocab : List String :=
  ["health_potion", "mana_potion", "iron_ore"]

/-- The seeds one loop iteration of `generate_sample_battle_records`
consumes. -/
structure BattleDraw where
  charS : Nat
  typeS : Nat
  resultS : Nat
  oppS : Nat
  durS : Nat
  ddS : Nat
  dtS : Nat
  comboS : Nat
  expS : Nat
  skillsKS : Nat
  skillsSampleS : Nat
  itemsKS : Nat
  itemsSampleS : Nat
  levelS : Nat
deriving Repr

/-- One battle record as built by the loop body of
`generate_sample_battle_records`: `none` models the `IndexError` that
`random.choice(character_ids)` raises on an empty pool; an empty
`levels` table merely leaves `level_id` as `None` (`fetchone` returned
nothing). -/
def mkBattleRecord (st : Store) (dr : BattleDraw) :
    Option BattleRecord :=
  match randChoice (st.characters.map (·.id)) dr.charS with
  | none => none
  | some cid =>
    let battle_type := (randChoice battleTypesVocab dr.typeS).getD ""
    let level_id :=
      if battle_type = "level" then
        randChoice (st.levels.map (·.id)) dr.levelS
      else none
    some { character_id := cid
           level_id := level_id
           battle_type := battle_type
           opponent_type := (randChoice opponentTypesVocab dr.oppS).getD ""
           result := (randChoice battleResultsVocab dr.resultS).getD ""
           duration := randint 30 600 dr.durS
           damage_dealt := randint 100 2000 dr.ddS
           damage_taken := randint 50 1500 dr.dtS
           skills_used :=
             randSample skillsUsedVocab (randint 1 3 dr.skillsKS)
               dr.skillsSampleS
           combo_max := randint 1 20 dr.comboS
           experience_gained := randint 10 200 dr.expS
           items_dropped :=
             randSample itemsDroppedVocab (randint 0 2 dr.itemsKS)
               dr.itemsSampleS }

/-- Embeds `generate_sample_battle_records(count)`: the produced rows,
or the error the Python loop raises when `random.choice` hits an empty
character pool. -/
def generate_sample_battle_records (st : Store) (count : Nat)
    (d : Nat → BattleDraw) : Except String (List BattleRecord) :=
  exceptMapList
    (fun i =>
      match mkBattleRecord st (d i) with
      | none => .error "IndexError: empty character pool"
      | some r => .ok r)
    (List.range count)

/-- The `statuses` vocabulary of `generate_sample_quest_progress`. -/
def questStatusVocab : List String :=
  ["not_started", "in_progress", "completed"]

/-- The seeds one loop iteration of `generate_sample_quest_progress`
consumes. -/
structure QPDraw where
  charS : Nat
  questS : Nat
  statusS : Nat
  daysS : Nat
  hoursS : Nat
  objS : Nat
deriving Repr

/-- One quest-progress row as built by the loop body of
`generate_sample_quest_progress`; `now` is `datetime.now()` in seconds,
`timedelta(days=d)` is `86400 * d`, `timedelta(hours=h)` is
`3600 * h`. `none` models the `IndexError` on an empty character or
quest pool. -/
def mkQuestProgress (st : Store) (now : Int) (dr : QPDraw) :
    Option QuestProgressRow :=
  match randChoice (st.characters.map (·.id)) dr.charS,
        randChoice (st.quests.map (·.id)) dr.questS with
  | some cid, some qid =>
    let status := (randChoice questStatusVocab dr.statusS).getD ""
    if status = "in_progress" then
      some { character_id := cid
             quest_id := qid
             status := status
             progress :=
               [("completed_objectives", JVal.num (randint 0 2 dr.objS))]
             start_time := some (now - 86400 * (randint 1 7 dr.daysS : Int))
             complete_time := none }
    else if status = "completed" then
      let startT := now - 86400 * (randint 1 7 dr.daysS : Int)
      some { character_id := cid
             quest_id := qid
             status := status
             progress := [("completed_objectives", JVal.num 3),
                          ("all_completed", JVal.bool true)]
             start_time := some startT
             complete_time :=
               some (startT + 3600 * (randint 1 24 dr.hoursS : Int)) }
    else
      some { character_id := cid
             quest_id := qid
             status := status
             progress := []
             start_time := none
             complete_time := none }
  | _, _ => none

/-- Embeds `generate_sample_quest_progress(count)`. -/
def generate_sample_quest_progress (st : Store) (now : Int) (count : Nat)
    (d : Nat → QPDraw) : Except String (List QuestProgressRow) :=
  exceptMapList
    (fun i =>
      match mkQuestProgress st now (d i) with
      | none => .error "IndexError: empty character or quest pool"
      | some r => .ok r)
    (List.range count)

/-- The `statuses` vocabulary of `generate_sample_level_progress`. -/
def levelStatusVocab : List String :=
  ["locked", "unlocked", "completed", "perfect"]

/-- The seeds one loop iteration of `generate_sample_level_progress`
consumes. -/
structure LPDraw where
  charS : Nat
  levelS : Nat
  statusS : Nat
  ctS : Nat
  scoreS : Nat
  starsS : Nat
  attS : Nat
deriving Repr

/-- One level-progress row as built by the loop body of
`generate_sample_level_progress`; the five numeric fields start at 0 and
are overwritten only in the `completed`/`perfect` branch. `none` models
the `IndexError` on an empty character or level pool. -/
def mkLevelProgress (st : Store) (dr : LPDraw) :
    Option LevelProgressRow :=
  match randChoice (st.characters.map (·.id)) dr.charS,
        randChoice (st.levels.map (·.id)) dr.levelS with
  | some cid, some lid =>
    let status := (randChoice levelStatusVocab dr.statusS).getD ""
    if status = "completed" ∨ status = "perfect" then
      let ct := randint 60 600 dr.ctS
      some { character_id := cid
             level_id := lid
             status := status
             completion_time := ct
             score := randint 1000 10000 dr.scoreS
             stars := randint 1 3 dr.starsS
             attempts := randint 1 5 dr.attS
             best_time := ct }
    else
      some { character_id := cid
             level_id := lid
             status := status
             completion_time := 0
             score := 0
             stars := 0
             attempts := 0
             best_time := 0 }
  | _, _ => none

/-- Embeds `generate_sample_level_progress(count)`. -/
def generate_sample_level_progress (st : Store) (count : Nat)
    (d : Nat → LPDraw) : Except String (List LevelProgressRow) :=
  exceptMapList
    (fun i =>
      match mkLevelProgress st (d i) with
      | none => .error "IndexError: empty character or level pool"
      | some r => .ok r)
    (List.range count)

/-- A placeholder character, never reached when the player pool is
non-empty (`random.choice` on a non-empty list always succeeds). -/
def dfltCharacter : Character :=
  { id := 0, name := "", cls := "", level := 0, experience := 0,
    health := 0, max_health := 0, mana := 0, max_mana := 0, attack := 0,
    defense := 0, speed := 0, critical_rate := 0, critical_damage := 0,
    is_player := false }

/-- The seeds one loop iteration of `generate_sample_save_data`
consumes. -/
structure SaveDraw where
  pickS : Nat
  chapterS : Nat
  playS : Nat
  curLevelS : Nat
  goldS : Nat
  volS : Nat
  gqS : Nat
  svS : Nat
  mvS : Nat
deriving Repr

/-- The graphics-quality vocabulary of `generate_sample_save_data`. -/
def graphicsQualityVocab : List String := ["low", "medium", "high"]

/-- One save slot as built by the loop body of
`generate_sample_save_data`, choosing among the player-flagged
characters. -/
def mkSaveSlot (players : List Character) (i : Nat) (dr : SaveDraw) :
    SaveSlot :=
  let ch := (randChoice players dr.pickS).getD dfltCharacter
  { slot_id := "save_slot_" ++ toString (i + 1)
    player_name := ch.name
    character_id := ch.id
    chapter := randint 1 6 dr.chapterS
    play_time := randint 3600 72000 dr.playS
    current_level := "level_" ++ toString (randint 1 15 dr.curLevelS)
    gold := randint 100 1000 dr.goldS
    volume := randint 50 100 dr.volS
    graphics_quality := (randChoice graphicsQualityVocab dr.gqS).getD ""
    sound_volume := randint 50 100 dr.svS
    music_volume := randint 50 100 dr.mvS }

/-- Embeds `generate_sample_save_data(count)`: if the
`WHERE is_player = 1` query returns nothing, the function logs a skip
message and returns with no rows written. -/
def generate_sample_save_data (st : Store) (count : Nat)
    (d : Nat → SaveDraw) : List SaveSlot :=
  let players := st.characters.filter (·.is_player)
  if players.isEmpty then []
  else (List.range count).map fun i => mkSaveSlot players i (d i)

/-- The expected table list of `test_table_structure` in
`test_database.py`. -/
def expectedTables : List String :=
  ["characters", "character_attributes", "skills", "character_skills",
   "equipment", "character_equipment", "items", "character_inventory",
   "quests", "character_quests", "levels", "character_level_progress",
   "battle_records", "status_effects", "achievements",
   "character_achievements", "save_data", "statistics", "config",
   "game_logs", "database_version"]

/-- The report of one `test_table_structure` run: the missing-table
set, the extra-table set, and the pass flag
(`return len(missing_tables) == 0`). -/
structure SchemaReport where
  missing : Finset String
  extra : Finset String
  passed : Bool
deriving DecidableEq

/-- Embeds `test_table_structure`: reads the live table list from the
store, compares it against `expectedTables` by set difference, and
returns the report together with the (unmodified) table list — the
function only executes `SELECT` statements. -/
def test_table_structure (existing : List String) :
    SchemaReport × List String :=
  let missing := expectedTables.toFinset \ existing.toFinset
  let extra := existing.toFinset \ expectedTables.toFinset
  (⟨missing, extra, missing = ∅⟩, existing)

/-! Helper lemmas about the draw primitives. -/

/-! Concrete fixtures used by the claim witnesses, and the batch
views of a generation run. -/

/-- The rows of `characters` written by one `generate_sample_characters`
run (the suffix the run appended). -/
def generatedCharacterBatch (st : Store) (count : Nat)
    (d : Nat → CharDraw) : List Character :=
  (generate_sample_characters st count d).characters.drop
    st.characters.length

/-- The rows of `character_skills` written by one
`generate_sample_characters` run. -/
def generatedSkillBatch (st : Store) (count : Nat) (d : Nat → CharDraw) :
    List CharacterSkill :=
  (generate_sample_characters st count d).character_skills.drop
    st.character_skills.length

/-- The empty store, used as the concrete seed state of witnesses. -/
def emptyStore : Store :=
  { characters := [], skills := [], equipment := [], items := [],
    character_skills := [], character_equipment := [],
    character_inventory := [], statistics := [], quests := [],
    levels := [], battle_records := [], character_quests := [],
    character_level_progress := [], save_data := [] }

/-- An all-zero per-character draw, used by witnesses. -/
def dfltCharDraw : CharDraw :=
  { nameS := 0, classS := 0, levelS := 0, expS := 0, healthS := 0,
    manaS := 0, attackS := 0, defenseS := 0, speedS := 0, critRateS := 0,
    critDmgS := 0, skillLevelS := fun _ => 0,
    skillEquipS := fun _ => false, equipPickS := fun _ => 0,
    equipDurS := fun _ => 0, equipEnchS := fun _ => 0, itemSampleS := 0,
    itemQtyS := fun _ => 0, statS := fun _ => 0 }

/-- A one-skill store: the skill is eligible for a level-1 warrior. -/
def skillStore : Store :=
  { emptyStore with
    skills := [{ id := "slash", class_requirement := "warrior",
                 level_requirement := 1 }] }

/-- An equipment pool with one eligible weapon and nothing for the other
slots. -/
def weaponOnlyPool : List EquipmentRow :=
  [{ id := "iron_sword", slot := "weapon", level_requirement := 1,
     class_requirement := none }]

/-- A concrete draw selecting the collect template with item `铁矿` and
count 3 (`randint 1 5 2 = 3`). -/
def collectDraw : QuestDraw :=
  { templS := 1, enemyS := 0, locS := 0, itemS := 0, countS := 2,
    chapterS := 0, lvlReqS := 0, expS := 0, goldS := 0, rewardKS := 0,
    rewardSampleS := 0 }

/-- An all-zero per-battle-record draw, used by witnesses. -/
def dfltBattleDraw : BattleDraw :=
  { charS := 0, typeS := 0, resultS := 0, oppS := 0, durS := 0,
    ddS := 0, dtS := 0, comboS := 0, expS := 0, skillsKS := 0,
    skillsSampleS := 0, itemsKS := 0, itemsSampleS := 0, levelS := 0 }

/-- A store holding one character (and no levels), used by witnesses of
the dependent generators. -/
def charStore : Store := { emptyStore with characters := [dfltCharacter] }

/-- A quest row carrying only its id, used by witness stores. -/
def dfltQuest : Quest :=
  { id := 0, title := "", description := "", qtype := "", chapter := 0,
    level_requirement := 0, objectives := [], rewards_experience := 0,
    rewards_gold := 0, rewards_items := [] }

/-- A store with one character and one quest, used by the C6 witness. -/
def qpStore : Store :=
  { emptyStore with
    characters := [dfltCharacter]
    quests := [dfltQuest] }

/-- An all-zero quest-progress draw (status draw 0 = `not_started`). -/
def dfltQPDraw : QPDraw :=
  { charS := 0, questS := 0, statusS := 0, daysS := 0, hoursS := 0,
    objS := 0 }

/-- The single row the C6 witness run produces. -/
def qpWitnessRow : QuestProgressRow :=
  { character_id := 0, quest_id := 0, status := "not_started",
    progress := [], start_time := none, complete_time := none }

/-- A store with one character and one level, used by the C7 witness. -/
def lpStore : Store :=
  { emptyStore with
    characters := [dfltCharacter]
    levels := [{ id := 0 }] }

/-- An all-zero level-progress draw (status draw 0 = `locked`). -/
def dfltLPDraw : LPDraw :=
  { charS := 0, levelS := 0, statusS := 0, ctS := 0, scoreS := 0,
    starsS := 0, attS := 0 }

/-- The single row the C7 witness run produces. -/
def lpWitnessRow : LevelProgressRow :=
  { character_id := 0, level_id := 0, status := "locked",
    completion_time := 0, score := 0, stars := 0, attempts := 0,
    best_time := 0 }

/-- A player-flagged character, used by the C8 witness. -/
def playerCharacter : Character :=
  { dfltCharacter with id := 7, name := "主角", is_player := true }

/-- A store holding one player-flagged character. -/
def playerStore : Store :=
  { emptyStore with characters := [playerCharacter] }

/-- An all-zero save-slot draw, used by witnesses. -/
def dfltSaveDraw : SaveDraw :=
  { pickS := 0, chapterS := 0, playS := 0, curLevelS := 0, goldS := 0,
    volS := 0, gqS := 0, svS := 0, mvS := 0 }

theorem randint_ge (a b s : Nat) : a ≤ randint a b s := by
  unfold randint; omega

theorem randint_le {a b : Nat} (s : Nat) (hab : a ≤ b) :
    randint a b s ≤ b := by
  unfold randint
  have h : s % (b + 1 - a) < b + 1 - a := Nat.mod_lt _ (by omega)
  omega

theorem randChoice_eq_none {α : Type} (s : Nat) :
    randChoice ([] : List α) s = none := rfl

theorem randChoice_mem {α : Type} {l : List α} {s : Nat} {a : α}
    (h : randChoice l s = some a) : a ∈ l := by
  unfold randChoice at h
  rcases Nat.lt_or_ge (s % l.length) l.length with hlt | hge
  · rw [List.getElem?_eq_getElem hlt] at h
    cases h
    exact List.getElem_mem hlt
  · rw [List.getElem?_eq_none hge] at h
    cases h

theorem randChoice_isSome {α : Type} {l : List α} (s : Nat)
    (h : l ≠ []) : ∃ a, randChoice l s = some a ∧ a ∈ l := by
  have hpos : 0 < l.length := List.length_pos.mpr h
  have hlt : s % l.length < l.length := Nat.mod_lt _ hpos
  refine ⟨l[s % l.length], ?_, List.getElem_mem hlt⟩
  unfold randChoice
  exact List.getElem?_eq_getElem hlt

theorem randChoice_getD_mem {α : Type} {l : List α} (s : Nat) (dflt : α)
    (h : l ≠ []) : (randChoice l s).getD dflt ∈ l := by
  obtain ⟨a, ha, hmem⟩ := randChoice_isSome s h
  rw [ha]
  exact hmem

/-! Helper lemmas about strings and rendering. -/

theorem string_empty_append (s : String) : "" ++ s = s :=
  String.ext (by simp [String.data_append])

theorem string_append_empty (s : String) : s ++ "" = s :=
  String.ext (by simp [String.data_append])

theorem string_append_assoc (a b c : String) :
    a ++ b ++ c = a ++ (b ++ c) :=
  String.ext (by simp [String.data_append])

theorem string_foldl_append (l : List String) (a : String) :
    l.foldl (fun r s => r ++ s) a =
      a ++ l.foldl (fun r s => r ++ s) "" := by
  induction l generalizing a with
  | nil => simp [List.foldl_nil, string_append_empty]
  | cons h t ih =>
    simp only [List.foldl_cons]
    rw [ih (a ++ h), ih ("" ++ h), string_empty_append,
      string_append_assoc]

theorem render_nil (e l it : String) (c : Nat) :
    render [] e l it c = "" := rfl

theorem render_cons (t : Tok) (ts : List Tok) (e l it : String)
    (c : Nat) :
    render (t :: ts) e l it c =
      renderTok e l it c t ++ render ts e l it c := by
  unfold render String.join
  simp only [List.map_cons, List.foldl_cons, string_empty_append]
  exact string_foldl_append _ _

theorem strContains_of_decomp {s pat : String} {pre suf : List Char}
    (h : s.data = pre ++ pat.data ++ suf) : strContains s pat = true := by
  unfold strContains
  rw [decide_eq_true_iff]
  exact h ▸ List.infix_append pre pat.data suf

/-! The characterisation of one full `generate_sample_characters` run:
the fold writes exactly the explicitly described rows. -/

theorem mkCharacter_cls (cid i : Nat) (d : CharDraw) :
    (mkCharacter cid i d).cls = drawCls d := rfl

theorem mkCharacter_level (cid i : Nat) (d : CharDraw) :
    (mkCharacter cid i d).level = drawLevel d := rfl

theorem mkCharacter_id (cid i : Nat) (d : CharDraw) :
    (mkCharacter cid i d).id = cid := rfl

theorem mkCharacter_is_player (cid i : Nat) (d : CharDraw) :
    (mkCharacter cid i d).is_player = (i == 0) := rfl

theorem generate_sample_characters_zero (st : Store)
    (d : Nat → CharDraw) : generate_sample_characters st 0 d = st := rfl

theorem generate_sample_characters_succ (st : Store) (n : Nat)
    (d : Nat → CharDraw) :
    generate_sample_characters st (n + 1) d =
      genCharacterStep (generate_sample_characters st n d) n (d n) := by
  unfold generate_sample_characters
  rw [List.range_succ, List.foldl_append]
  rfl

theorem gsc_characters (st : Store) (count : Nat) (d : Nat → CharDraw) :
    (generate_sample_characters st count d).characters =
      st.characters ++ (List.range count).map
        (fun i => mkCharacter (st.characters.length + i) i (d i)) := by
  induction count with
  | zero => simp [generate_sample_characters_zero]
  | succ n ih =>
    rw [generate_sample_characters_succ, List.range_succ, List.map_append]
    unfold genCharacterStep
    simp only [ih]
    simp [mkCharacter_id]

theorem gsc_characters_length (st : Store) (count : Nat)
    (d : Nat → CharDraw) :
    (generate_sample_characters st count d).characters.length =
      st.characters.length + count := by
  rw [gsc_characters]; simp

theorem gsc_skills_table (st : Store) (count : Nat)
    (d : Nat → CharDraw) :
    (generate_sample_characters st count d).skills = st.skills := by
  induction count with
  | zero => rfl
  | succ n ih => rw [generate_sample_characters_succ]; exact ih

theorem gsc_character_skills (st : Store) (count : Nat)
    (d : Nat → CharDraw) :
    (generate_sample_characters st count d).character_skills =
      st.character_skills ++ (List.range count).flatMap
        (fun i => addSkills st.skills (st.characters.length + i)
          (drawCls (d i)) (drawLevel (d i)) (d i).skillLevelS
          (d i).skillEquipS) := by
  induction count with
  | zero => simp [generate_sample_characters_zero]
  | succ n ih =>
    rw [generate_sample_characters_succ, List.range_succ,
      List.flatMap_append]
    unfold genCharacterStep
    simp only [ih, gsc_skills_table, gsc_characters_length,
      mkCharacter_id, mkCharacter_cls, mkCharacter_level]
    simp [List.append_assoc]

theorem generatedCharacterBatch_eq (st : Store) (count : Nat)
    (d : Nat → CharDraw) :
    generatedCharacterBatch st count d = (List.range count).map
      (fun i => mkCharacter (st.characters.length + i) i (d i)) := by
  unfold generatedCharacterBatch
  rw [gsc_characters, List.drop_left]

theorem range_filter_beq_zero (n : Nat) :
    (List.range (n + 1)).filter (fun i => i == 0) = [0] := by
  rw [List.range_succ_eq_map]
  simp [List.filter_map, Function.comp_def]

/-- Claim C1: after one `generate_sample_characters(count)` run with
`count ≥ 1` on a store holding no player-flagged character, exactly one
character row has `is_player = true`; it is the first row of the
generated batch (loop index 0), and every later row of the batch has
`is_player = false`. -/
theorem claim_C1 (st : Store) (count : Nat) (d : Nat → CharDraw)
    (h0 : ∀ c ∈ st.characters, c.is_player = false) (h1 : 1 ≤ count) :
    ((generate_sample_characters st count d).characters.filter
        (·.is_player)).length = 1
    ∧ (∃ c, (generatedCharacterBatch st count d).head? = some c ∧
        c.is_player = true)
    ∧ ∀ j, (hj : j < (generatedCharacterBatch st count d).length) →
        0 < j →
        ((generatedCharacterBatch st count d).get ⟨j, hj⟩).is_player =
          false := by
  obtain ⟨n, rfl⟩ : ∃ n, count = n + 1 := ⟨count - 1, by omega⟩
  refine ⟨?_, ?_, ?_⟩
  · rw [gsc_characters, List.filter_append]
    have hold : st.characters.filter (·.is_player) = [] := by
      rw [List.filter_eq_nil_iff]
      intro c hc
      simp [h0 c hc]
    rw [hold, List.filter_map]
    have hcomp : ((fun c : Character => c.is_player) ∘
        fun i => mkCharacter (st.characters.length + i) i (d i)) =
        fun i => i == 0 := by
      funext i
      simp [Function.comp_def, mkCharacter_is_player]
    rw [hcomp, range_filter_beq_zero]
    simp
  · rw [generatedCharacterBatch_eq, List.range_succ_eq_map]
    exact ⟨_, rfl, rfl⟩
  · intro j hj
    revert hj
    rw [generatedCharacterBatch_eq]
    intro hj hpos
    have hj' : j < n + 1 := by simpa using hj
    rw [List.get_eq_getElem, List.getElem_map, List.getElem_range,
      mkCharacter_is_player]
    simp only [beq_eq_false_iff_ne, ne_eq]
    omega

/-- Witness for claim C1 at the empty store with `count = 2`. -/
theorem claim_C1_witness :
    (∀ c ∈ emptyStore.characters, c.is_player = false) ∧ 1 ≤ 2 ∧
    (((generate_sample_characters emptyStore 2
        (fun _ => dfltCharDraw)).characters.filter
          (·.is_player)).length = 1
     ∧ (∃ c, (generatedCharacterBatch emptyStore 2
          (fun _ => dfltCharDraw)).head? = some c ∧ c.is_player = true)
     ∧ ∀ j, (hj : j < (generatedCharacterBatch emptyStore 2
          (fun _ => dfltCharDraw)).length) → 0 < j →
          ((generatedCharacterBatch emptyStore 2
            (fun _ => dfltCharDraw)).get ⟨j, hj⟩).is_player = false) :=
  ⟨by intro c hc; simp [emptyStore] at hc, by norm_num,
    claim_C1 emptyStore 2 (fun _ => dfltCharDraw)
      (by intro c hc; simp [emptyStore] at hc) (by norm_num)⟩

/-! Lemmas about `addSkills`, feeding claims C3 and C10. -/

theorem addSkills_mem {skills : List Skill} {cid : Nat} {cls : String}
    {level : Nat} {lvS : Nat → Nat} {eqS : Nat → Bool}
    {row : CharacterSkill}
    (h : row ∈ addSkills skills cid cls level lvS eqS) :
    row.character_id = cid ∧
    ∃ sk ∈ skills, row.skill_id = sk.id ∧ sk.class_requirement = cls ∧
      sk.level_requirement ≤ level ∧ 1 ≤ row.skill_level ∧
      row.skill_level ≤ min (level / 2 + 1) 10 := by
  unfold addSkills at h
  obtain ⟨p, hp, rfl⟩ := List.mem_map.mp h
  rw [List.enum_eq_zip_range] at hp
  have hsk : p.2 ∈ eligibleSkills skills cls level :=
    List.mem_of_mem_take (List.of_mem_zip hp).2
  unfold eligibleSkills at hsk
  obtain ⟨hmem, hcond⟩ := List.mem_filter.mp hsk
  rw [Bool.and_eq_true, beq_iff_eq, decide_eq_true_iff] at hcond
  refine ⟨rfl, p.2, hmem, rfl, hcond.1, hcond.2, randint_ge _ _ _,
    randint_le _ ?_⟩
  omega

theorem addSkills_length_le (skills : List Skill) (cid : Nat)
    (cls : String) (level : Nat) (lvS : Nat → Nat) (eqS : Nat → Bool) :
    (addSkills skills cid cls level lvS eqS).length ≤ 5 := by
  unfold addSkills
  simp only [List.length_map, List.enum_length, List.length_take]
  omega

theorem generatedSkillBatch_eq (st : Store) (count : Nat)
    (d : Nat → CharDraw) :
    generatedSkillBatch st count d = (List.range count).flatMap
      (fun i => addSkills st.skills (st.characters.length + i)
        (drawCls (d i)) (drawLevel (d i)) (d i).skillLevelS
        (d i).skillEquipS) := by
  unfold generatedSkillBatch
  rw [gsc_character_skills, List.drop_left]

theorem sum_map_le_single {α : Type} (l : List α) (g : α → Nat) (a : α)
    (B : Nat) (hnd : l.Nodup) (hz : ∀ x ∈ l, x ≠ a → g x = 0)
    (hb : g a ≤ B) : (l.map g).sum ≤ B := by
  induction l with
  | nil => simp
  | cons h t ih =>
    obtain ⟨hht, hndt⟩ := List.nodup_cons.mp hnd
    simp only [List.map_cons, List.sum_cons]
    by_cases hha : h = a
    · subst hha
      have hz' : (t.map g).sum = 0 := by
        apply List.sum_eq_zero
        intro x hx
        obtain ⟨y, hy, rfl⟩ := List.mem_map.mp hx
        exact hz y (List.mem_cons_of_mem _ hy) (fun hc => hht (hc ▸ hy))
      omega
    · have h0 : g h = 0 := hz h (List.mem_cons_self _ _) hha
      have := ih hndt (fun x hx => hz x (List.mem_cons_of_mem _ hx))
      omega

/-- Claim C3: every `character_skills` row produced by a seeding run
references a skill whose `level_requirement` is at most the owning
character's level and whose `class_requirement` equals the owning
character's class; the assigned `skill_level` lies in
`[1, min(level/2 + 1, 10)]`; and no generated character receives more
than 5 skill rows. -/
theorem claim_C3 (st : Store) (count : Nat) (d : Nat → CharDraw) :
    (∀ row ∈ generatedSkillBatch st count d,
      ∃ c ∈ (generate_sample_characters st count d).characters,
        row.character_id = c.id ∧
        ∃ sk ∈ st.skills, row.skill_id = sk.id ∧
          sk.level_requirement ≤ c.level ∧
          sk.class_requirement = c.cls ∧ 1 ≤ row.skill_level ∧
          row.skill_level ≤ min (c.level / 2 + 1) 10)
    ∧ ∀ c ∈ generatedCharacterBatch st count d,
        ((generatedSkillBatch st count d).filter
          (fun r => r.character_id == c.id)).length ≤ 5 := by
  constructor
  · intro row hrow
    rw [generatedSkillBatch_eq] at hrow
    obtain ⟨i, hi, hmem⟩ := List.mem_flatMap.mp hrow
    obtain ⟨hcid, sk, hsk, hid, hclsreq, hlvreq, hlv1, hlv2⟩ :=
      addSkills_mem hmem
    refine ⟨mkCharacter (st.characters.length + i) i (d i), ?_, ?_, sk,
      hsk, hid, ?_, ?_, hlv1, ?_⟩
    · rw [gsc_characters]
      exact List.mem_append_right _ (List.mem_map.mpr ⟨i, hi, rfl⟩)
    · rw [mkCharacter_id]; exact hcid
    · rw [mkCharacter_level]; exact hlvreq
    · rw [mkCharacter_cls]; exact hclsreq
    · rw [mkCharacter_level]; exact hlv2
  · intro c hc
    rw [generatedCharacterBatch_eq] at hc
    obtain ⟨i, hi, rfl⟩ := List.mem_map.mp hc
    rw [generatedSkillBatch_eq, List.filter_flatMap,
      List.length_flatMap]
    apply sum_map_le_single _ _ i 5 (List.nodup_range count)
    · intro j hj hji
      simp only [Function.comp_apply]
      rw [List.length_eq_zero, List.filter_eq_nil_iff]
      intro r hr
      have hrid := (addSkills_mem hr).1
      rw [mkCharacter_id]
      simp only [beq_iff_eq, hrid]
      rw [List.mem_range] at hj
      omega
    · simp only [Function.comp_apply]
      calc ((addSkills st.skills (st.characters.length + i)
              (drawCls (d i)) (drawLevel (d i)) (d i).skillLevelS
              (d i).skillEquipS).filter _).length
          ≤ (addSkills st.skills (st.characters.length + i)
              (drawCls (d i)) (drawLevel (d i)) (d i).skillLevelS
              (d i).skillEquipS).length := List.length_filter_le _ _
        _ ≤ 5 := addSkills_length_le _ _ _ _ _ _

/-- Witness for claim C3: a store with one eligible skill, one generated
character. -/
theorem claim_C3_witness :
    (∃ c ∈ (generate_sample_characters skillStore 1
        (fun _ => dfltCharDraw)).characters,
      ({ character_id := 0, skill_id := "slash", skill_level := 1,
         is_equipped := false } : CharacterSkill).character_id = c.id ∧
      ∃ sk ∈ skillStore.skills,
        ({ character_id := 0, skill_id := "slash", skill_level := 1,
           is_equipped := false } : CharacterSkill).skill_id = sk.id ∧
        sk.level_requirement ≤ c.level ∧
        sk.class_requirement = c.cls ∧
        1 ≤ ({ character_id := 0, skill_id := "slash", skill_level := 1,
               is_equipped := false } : CharacterSkill).skill_level ∧
        ({ character_id := 0, skill_id := "slash", skill_level := 1,
           is_equipped := false } : CharacterSkill).skill_level ≤
          min (c.level / 2 + 1) 10)
    ∧ ((generatedSkillBatch skillStore 1
        (fun _ => dfltCharDraw)).filter
          (fun r => r.character_id ==
            (mkCharacter 0 0 dfltCharDraw).id)).length ≤ 5 :=
  ⟨(claim_C3 skillStore 1 (fun _ => dfltCharDraw)).1
      { character_id := 0, skill_id := "slash", skill_level := 1,
        is_equipped := false } (by decide),
   (claim_C3 skillStore 1 (fun _ => dfltCharDraw)).2
      (mkCharacter 0 0 dfltCharDraw) (by decide)⟩

theorem take_min_length {α : Type} (l : List α) (n : Nat) :
    l.take (min n l.length) = l.take n := by
  rcases Nat.le_total n l.length with h | h
  · rw [Nat.min_eq_left h]
  · rw [Nat.min_eq_right h, List.take_length, List.take_of_length_le h]

/-- Claim C10: the set of skills a character receives is deterministic
given the store — `addSkills` assigns exactly the first
`min(5, n)` skills in the order the eligibility query returns them
(independently of the random skill-level/equipped draws), and when at
most 5 skills are eligible, every eligible skill is assigned. -/
theorem claim_C10 (skills : List Skill) (cid : Nat) (cls : String)
    (level : Nat) (lvS lvS' : Nat → Nat) (eqS eqS' : Nat → Bool) :
    ((addSkills skills cid cls level lvS eqS).map
        (fun r => r.skill_id) =
      ((eligibleSkills skills cls level).map Skill.id).take 5)
    ∧ ((addSkills skills cid cls level lvS eqS).map
        (fun r => r.skill_id) =
      (addSkills skills cid cls level lvS' eqS').map
        (fun r => r.skill_id))
    ∧ ((eligibleSkills skills cls level).length ≤ 5 →
      (addSkills skills cid cls level lvS eqS).map
          (fun r => r.skill_id) =
        (eligibleSkills skills cls level).map Skill.id) := by
  have key : ∀ (f : Nat → Nat) (g : Nat → Bool),
      (addSkills skills cid cls level f g).map (fun r => r.skill_id) =
        ((eligibleSkills skills cls level).map Skill.id).take 5 := by
    intro f g
    unfold addSkills
    rw [List.map_map]
    have : ((fun r : CharacterSkill => r.skill_id) ∘ fun p =>
        ({ character_id := cid, skill_id := p.2.id,
           skill_level := randint 1 (min (level / 2 + 1) 10) (f p.1),
           is_equipped := g p.1 } : CharacterSkill)) =
        (Skill.id ∘ Prod.snd) := rfl
    rw [this, ← List.map_map, List.enum_map_snd, take_min_length,
      List.map_take]
  refine ⟨key lvS eqS, by rw [key lvS eqS, key lvS' eqS'], ?_⟩
  intro hle
  rw [key lvS eqS]
  exact List.take_of_length_le (by simpa using hle)

/-- Witness for claim C10's conditional part at a one-skill store. -/
theorem claim_C10_witness :
    (eligibleSkills skillStore.skills "warrior" 1).length ≤ 5 ∧
    (addSkills skillStore.skills 0 "warrior" 1 (fun _ => 0)
        (fun _ => false)).map (fun r => r.skill_id) =
      (eligibleSkills skillStore.skills "warrior" 1).map Skill.id :=
  ⟨by decide,
   (claim_C10 skillStore.skills 0 "warrior" 1 (fun _ => 0) (fun _ => 0)
      (fun _ => false) (fun _ => false)).2.2 (by decide)⟩

/-! Lemmas about `addEquipment`, feeding claim C4. -/

theorem addEquipment_mem {eqs : List EquipmentRow} {cid : Nat}
    {cls : String} {level : Nat} {pickS durS enchS : Nat → Nat}
    {r : CharacterEquipment}
    (h : r ∈ addEquipment eqs cid cls level pickS durS enchS) :
    r.slot ∈ equipmentSlots ∧
    ∃ e ∈ eligibleEquipment eqs r.slot level cls,
      r.equipment_id = e.id := by
  unfold addEquipment at h
  obtain ⟨p, hp, hf⟩ := List.mem_filterMap.mp h
  rcases hc : randChoice (eligibleEquipment eqs p.2 level cls)
      (pickS p.1) with _ | e
  · rw [hc] at hf; cases hf
  · rw [hc] at hf
    cases hf
    have hpmem : p.2 ∈ equipmentSlots := by
      rw [List.mem_enum_iff_getElem?] at hp
      rcases Nat.lt_or_ge p.1 equipmentSlots.length with hlt | hge
      · rw [List.getElem?_eq_getElem hlt] at hp
        rw [← Option.some.inj hp]
        exact List.getElem_mem hlt
      · rw [List.getElem?_eq_none hge] at hp
        cases hp
    exact ⟨hpmem, e, randChoice_mem hc, rfl⟩

/-- Claim C4: during equipment generation for a character, a slot whose
eligibility query returns nothing gets no `character_equipment` row, and
generation continues — every other slot with a non-empty eligible set
still receives its row; an empty slot is a valid end state. -/
theorem claim_C4 (eqs : List EquipmentRow) (cid : Nat) (cls : String)
    (level : Nat) (pickS durS enchS : Nat → Nat) (slot : String)
    (hslot : slot ∈ equipmentSlots)
    (hempty : eligibleEquipment eqs slot level cls = []) :
    (∀ r ∈ addEquipment eqs cid cls level pickS durS enchS,
      r.slot ≠ slot)
    ∧ ∀ s ∈ equipmentSlots, eligibleEquipment eqs s level cls ≠ [] →
        ∃ r ∈ addEquipment eqs cid cls level pickS durS enchS,
          r.slot = s := by
  constructor
  · intro r hr hc
    obtain ⟨_, e, he, _⟩ := addEquipment_mem hr
    rw [hc, hempty] at he
    cases he
  · intro s hs hne
    obtain ⟨j, hj, rfl⟩ := List.mem_iff_getElem.mp hs
    obtain ⟨e, he, _⟩ := randChoice_isSome (pickS j) hne
    refine ⟨{ character_id := cid, equipment_id := e.id,
              slot := equipmentSlots[j], is_equipped := true,
              durability := randint 80 100 (durS j),
              enchant_level := randint 0 3 (enchS j) }, ?_, rfl⟩
    apply List.mem_filterMap.mpr
    refine ⟨(j, equipmentSlots[j]), ?_, ?_⟩
    · rw [List.mk_mem_enum_iff_getElem?]
      exact List.getElem?_eq_getElem hj
    · simp only [he]

/-- Witness for claim C4: with only a weapon in the pool, the `ring`
slot is skipped while the `weapon` slot is still filled. -/
theorem claim_C4_witness :
    ("ring" ∈ equipmentSlots) ∧
    (eligibleEquipment weaponOnlyPool "ring" 1 "warrior" = []) ∧
    ((∀ r ∈ addEquipment weaponOnlyPool 0 "warrior" 1 (fun _ => 0)
        (fun _ => 0) (fun _ => 0), r.slot ≠ "ring")
     ∧ ∀ s ∈ equipmentSlots,
         eligibleEquipment weaponOnlyPool s 1 "warrior" ≠ [] →
         ∃ r ∈ addEquipment weaponOnlyPool 0 "warrior" 1 (fun _ => 0)
             (fun _ => 0) (fun _ => 0), r.slot = s) :=
  ⟨by decide, by decide,
   claim_C4 weaponOnlyPool 0 "warrior" 1 (fun _ => 0) (fun _ => 0)
     (fun _ => 0) "ring" (by decide) (by decide)⟩

/-! Rendering lemmas for the quest templates, feeding claim C2. -/

theorem render_singleton (t : Tok) (e l it : String) (c : Nat) :
    render [t] e l it c = renderTok e l it c t := by
  rw [render_cons, render_nil, string_append_empty]

theorem render_collect_title (e l X : String) (N : Nat) :
    render [.lit "收集", .item] e l X N = "收集" ++ X := by
  rw [render_cons, render_singleton]
  rfl

theorem render_collect_desc (e l X : String) (N : Nat) :
    render [.lit "收集", .count, .lit "个", .item] e l X N =
      "收集" ++ toString N ++ "个" ++ X := by
  apply String.ext
  rw [render_cons, render_cons, render_cons, render_singleton]
  simp [renderTok, String.data_append]

/-- The second entry of `questTemplates` (the "collect" template),
selected whenever the template draw is ≡ 1 mod 3. -/
theorem randChoice_collect_template {s : Nat} (h : s % 3 = 1) :
    randChoice questTemplates s =
      some { title := [.lit "收集", .item]
             description := [.lit "收集", .count, .lit "个", .item]
             qtype := "side"
             objectives := [[("type", [.lit "collect"]),
                             ("item", [.item]), ("count", [.count])]] } := by
  unfold randChoice
  rw [show questTemplates.length = 3 from rfl, h]
  rfl

/-- Claim C2 (amended): a quest drawn from the "collect" template with
drawn item `X` and drawn count `N` stores exactly one objective entry,
of type `collect`, with `item = X` and `count` equal to the decimal
string rendering of `N` (Python `str.format` yields a string, not an
integer); the description contains both substituted values, and the very
same `X`/`N` are substituted into title, description and the objective
fields. -/
theorem claim_C2_amended (qid : Nat) (dr : QuestDraw)
    (ht : dr.templS % 3 = 1) :
    (mkQuest qid dr).objectives =
      [[("type", JVal.str "collect"),
        ("item",
          JVal.str ((randChoice questItemsVocab dr.itemS).getD "")),
        ("count", JVal.str (toString (randint 1 5 dr.countS)))]]
    ∧ (mkQuest qid dr).description =
        "收集" ++ toString (randint 1 5 dr.countS) ++ "个" ++
          ((randChoice questItemsVocab dr.itemS).getD "")
    ∧ strContains (mkQuest qid dr).description
        ((randChoice questItemsVocab dr.itemS).getD "") = true
    ∧ strContains (mkQuest qid dr).description
        (toString (randint 1 5 dr.countS)) = true
    ∧ (mkQuest qid dr).title =
        "收集" ++ ((randChoice questItemsVocab dr.itemS).getD "") := by
  have hdesc : (mkQuest qid dr).description =
      "收集" ++ toString (randint 1 5 dr.countS) ++ "个" ++
        ((randChoice questItemsVocab dr.itemS).getD "") := by
    simp only [mkQuest, randChoice_collect_template ht, Option.getD_some]
    exact render_collect_desc _ _ _ _
  refine ⟨?_, hdesc, ?_, ?_, ?_⟩
  · simp only [mkQuest, randChoice_collect_template ht, Option.getD_some]
    simp only [substObjective, List.map_cons, List.map_nil,
      render_singleton, renderTok]
  · apply strContains_of_decomp
    show _ = ("收集" ++ toString (randint 1 5 dr.countS) ++ "个").data ++
      ((randChoice questItemsVocab dr.itemS).getD "").data ++ ([] : List Char)
    rw [hdesc]
    simp [String.data_append]
  · apply strContains_of_decomp
    show _ = "收集".data ++ (toString (randint 1 5 dr.countS)).data ++
      ("个" ++ ((randChoice questItemsVocab dr.itemS).getD "")).data
    rw [hdesc]
    simp [String.data_append]
  · simp only [mkQuest, randChoice_collect_template ht, Option.getD_some]
    exact render_collect_title _ _ _ _

/-- Counterexample to claim C2 as stated: at the concrete collect draw
with item `铁矿` and count 3, the stored objective's `count` field is
the JSON string `"3"`, not the JSON integer `3`. -/
theorem claim_C2_counterexample :
    (mkQuest 0 collectDraw).objectives =
      [[("type", JVal.str "collect"), ("item", JVal.str "铁矿"),
        ("count", JVal.str "3")]]
    ∧ (mkQuest 0 collectDraw).objectives ≠
      [[("type", JVal.str "collect"), ("item", JVal.str "铁矿"),
        ("count", JVal.num 3)]]
    ∧ JVal.str "3" ≠ JVal.num 3 := by
  refine ⟨by decide, by decide, by decide⟩

/-- Witness for the amended claim C2 at the concrete collect draw. -/
theorem claim_C2_amended_witness :
    collectDraw.templS % 3 = 1 ∧
    ((mkQuest 0 collectDraw).objectives =
      [[("type", JVal.str "collect"),
        ("item",
          JVal.str ((randChoice questItemsVocab collectDraw.itemS).getD "")),
        ("count",
          JVal.str (toString (randint 1 5 collectDraw.countS)))]]
    ∧ (mkQuest 0 collectDraw).description =
        "收集" ++ toString (randint 1 5 collectDraw.countS) ++ "个" ++
          ((randChoice questItemsVocab collectDraw.itemS).getD "")
    ∧ strContains (mkQuest 0 collectDraw).description
        ((randChoice questItemsVocab collectDraw.itemS).getD "") = true
    ∧ strContains (mkQuest 0 collectDraw).description
        (toString (randint 1 5 collectDraw.countS)) = true
    ∧ (mkQuest 0 collectDraw).title =
        "收集" ++ ((randChoice questItemsVocab collectDraw.itemS).getD "")) :=
  ⟨by decide, claim_C2_amended 0 collectDraw (by decide)⟩

/-! Lemmas about `exceptMapList`, feeding claims C5, C6 and C7. -/

theorem exceptMapList_ok_mem {α β : Type} {f : α → Except String β}
    {l : List α} {ys : List β} (h : exceptMapList f l = .ok ys) :
    ∀ y ∈ ys, ∃ a ∈ l, f a = .ok y := by
  induction l generalizing ys with
  | nil =>
    unfold exceptMapList at h
    cases h
    intro y hy
    cases hy
  | cons a as ih =>
    unfold exceptMapList at h
    cases hfa : f a with
    | error e => rw [hfa] at h; cases h
    | ok b =>
      rw [hfa] at h
      cases hrec : exceptMapList f as with
      | error e => rw [hrec] at h; cases h
      | ok bs =>
        rw [hrec] at h
        cases h
        intro y hy
        rcases List.mem_cons.mp hy with rfl | hybs
        · exact ⟨a, List.mem_cons_self _ _, hfa⟩
        · obtain ⟨a', ha', hfa'⟩ := ih hrec y hybs
          exact ⟨a', List.mem_cons_of_mem _ ha', hfa'⟩

theorem exceptMapList_ok_of_forall {α β : Type}
    {f : α → Except String β} {l : List α}
    (h : ∀ a ∈ l, ∃ b, f a = .ok b) :
    ∃ ys, exceptMapList f l = .ok ys := by
  induction l with
  | nil => exact ⟨[], rfl⟩
  | cons a as ih =>
    obtain ⟨b, hb⟩ := h a (List.mem_cons_self _ _)
    obtain ⟨bs, hbs⟩ :=
      ih (fun x hx => h x (List.mem_cons_of_mem _ hx))
    refine ⟨b :: bs, ?_⟩
    unfold exceptMapList
    rw [hb, hbs]

theorem mkBattleRecord_isSome (st : Store) (dr : BattleDraw)
    (h : st.characters ≠ []) : ∃ r, mkBattleRecord st dr = some r := by
  have hmap : st.characters.map (·.id) ≠ [] := by
    simpa [List.map_eq_nil] using h
  obtain ⟨cid, hc, _⟩ := randChoice_isSome dr.charS hmap
  unfold mkBattleRecord
  rw [hc]
  exact ⟨_, rfl⟩

theorem mkBattleRecord_level_id_none {st : Store} {dr : BattleDraw}
    {r : BattleRecord} (h : mkBattleRecord st dr = some r)
    (hlev : st.levels = []) : r.level_id = none := by
  unfold mkBattleRecord at h
  cases hc : randChoice (st.characters.map (·.id)) dr.charS with
  | none => rw [hc] at h; cases h
  | some cid =>
    rw [hc] at h
    cases h
    simp [hlev, randChoice]

/-- Counterexample to claim C5 as stated: running
`generate_sample_battle_records` with one requested record against a
store holding zero characters does not complete without error — the
loop's `random.choice(character_ids)` raises, modelled as the error
result. -/
theorem claim_C5_counterexample :
    exceptIsOk (generate_sample_battle_records emptyStore 1
      (fun _ => dfltBattleDraw)) = false := by
  decide

/-- Claim C5 (amended): the non-fatal-omission behaviour holds for
optional sub-references — with a non-empty character pool the generator
always succeeds, and an empty `levels` pool merely leaves each record's
`level_id` null — but a generator that draws a required character
reference from an empty pool errors (Python `IndexError`) instead of
omitting the record. -/
theorem claim_C5_amended (st : Store) (count : Nat)
    (d : Nat → BattleDraw) :
    (st.characters = [] → 1 ≤ count →
      exceptIsOk (generate_sample_battle_records st count d) = false)
    ∧ (st.characters ≠ [] →
      ∃ rows, generate_sample_battle_records st count d = .ok rows ∧
        (st.levels = [] → ∀ r ∈ rows, r.level_id = none)) := by
  constructor
  · intro hchars hcount
    obtain ⟨n, rfl⟩ : ∃ n, count = n + 1 := ⟨count - 1, by omega⟩
    unfold generate_sample_battle_records
    rw [List.range_succ_eq_map]
    have hf : mkBattleRecord st (d 0) = none := by
      unfold mkBattleRecord
      rw [hchars]
      rfl
    unfold exceptMapList
    simp [hf, exceptIsOk]
  · intro hchars
    have hex : ∀ i ∈ List.range count, ∃ b,
        (fun i => match mkBattleRecord st (d i) with
          | none => Except.error "IndexError: empty character pool"
          | some r => Except.ok r) i = Except.ok b := by
      intro i _
      obtain ⟨r, hr⟩ := mkBattleRecord_isSome st (d i) hchars
      exact ⟨r, by simp only [hr]⟩
    obtain ⟨rows, hrows⟩ := exceptMapList_ok_of_forall hex
    refine ⟨rows, hrows, ?_⟩
    intro hlev r hr
    obtain ⟨i, _, hfi⟩ := exceptMapList_ok_mem hrows r hr
    cases hmk : mkBattleRecord st (d i) with
    | none => rw [hmk] at hfi; cases hfi
    | some r' =>
      rw [hmk] at hfi
      cases hfi
      exact mkBattleRecord_level_id_none hmk hlev

/-- Witness for the amended claim C5: both the failing branch (empty
pool, two requested records) and the succeeding branch (one character,
no levels). -/
theorem claim_C5_amended_witness :
    (emptyStore.characters = [] ∧ 1 ≤ 2 ∧
      exceptIsOk (generate_sample_battle_records emptyStore 2
        (fun _ => dfltBattleDraw)) = false)
    ∧ (charStore.characters ≠ [] ∧
      ∃ rows, generate_sample_battle_records charStore 1
          (fun _ => dfltBattleDraw) = .ok rows ∧
        (charStore.levels = [] → ∀ r ∈ rows, r.level_id = none)) :=
  ⟨⟨rfl, by norm_num,
    (claim_C5_amended emptyStore 2 (fun _ => dfltBattleDraw)).1 rfl
      (by norm_num)⟩,
   ⟨by decide,
    (claim_C5_amended charStore 1 (fun _ => dfltBattleDraw)).2
      (by decide)⟩⟩

/-! Per-row invariants of the progress generators, feeding claims C6
and C7. -/

theorem mkQuestProgress_invariant {st : Store} {now : Int} {dr : QPDraw}
    {r : QuestProgressRow} (h : mkQuestProgress st now dr = some r) :
    (r.status = "not_started" → r.start_time = none)
    ∧ (r.status = "completed" →
        ∃ s c, r.start_time = some s ∧ r.complete_time = some c ∧ s < c)
    ∧ (r.status ≠ "completed" → r.complete_time = none) := by
  unfold mkQuestProgress at h
  cases hc : randChoice (st.characters.map (·.id)) dr.charS with
  | none => rw [hc] at h; cases h
  | some cid =>
    cases hq : randChoice (st.quests.map (·.id)) dr.questS with
    | none => rw [hc, hq] at h; cases h
    | some qid =>
      rw [hc, hq] at h
      simp only at h
      split_ifs at h with h1 h2
      · cases h
        refine ⟨?_, ?_, fun _ => rfl⟩
        · intro hns
          exact absurd (h1.symm.trans hns) (by decide)
        · intro hcm
          exact absurd (h1.symm.trans hcm) (by decide)
      · cases h
        refine ⟨?_, ?_, ?_⟩
        · intro hns
          exact absurd (h2.symm.trans hns) (by decide)
        · intro _
          refine ⟨_, _, rfl, rfl, ?_⟩
          have hk : 1 ≤ randint 1 24 dr.hoursS := randint_ge _ _ _
          omega
        · intro hne
          exact absurd h2 hne
      · cases h
        exact ⟨fun _ => rfl, fun hcm => absurd hcm h2, fun _ => rfl⟩

/-- Claim C6: every `character_quests` row written by
`generate_sample_quest_progress` satisfies the status/time coupling:
`not_started` rows have null `start_time`; `completed` rows have
non-null `start_time` and `complete_time` with
`complete_time > start_time`; `complete_time` is null for every
non-`completed` status. -/
theorem claim_C6 (st : Store) (now : Int) (count : Nat)
    (d : Nat → QPDraw) (rows : List QuestProgressRow)
    (h : generate_sample_quest_progress st now count d = .ok rows) :
    ∀ r ∈ rows,
      (r.status = "not_started" → r.start_time = none)
      ∧ (r.status = "completed" →
          ∃ s c, r.start_time = some s ∧ r.complete_time = some c ∧
            s < c)
      ∧ (r.status ≠ "completed" → r.complete_time = none) := by
  unfold generate_sample_quest_progress at h
  intro r hr
  obtain ⟨i, _, hfi⟩ := exceptMapList_ok_mem h r hr
  cases hmk : mkQuestProgress st now (d i) with
  | none => rw [hmk] at hfi; cases hfi
  | some r' =>
    rw [hmk] at hfi
    cases hfi
    exact mkQuestProgress_invariant hmk

/-- Witness for claim C6 at a one-character/one-quest store. -/
theorem claim_C6_witness :
    (qpWitnessRow.status = "not_started" →
      qpWitnessRow.start_time = none)
    ∧ (qpWitnessRow.status = "completed" →
        ∃ s c, qpWitnessRow.start_time = some s ∧
          qpWitnessRow.complete_time = some c ∧ s < c)
    ∧ (qpWitnessRow.status ≠ "completed" →
        qpWitnessRow.complete_time = none) :=
  claim_C6 qpStore 0 1 (fun _ => dfltQPDraw) [qpWitnessRow] (by rfl)
    qpWitnessRow (List.mem_singleton.mpr rfl)

theorem mkLevelProgress_invariant {st : Store} {dr : LPDraw}
    {r : LevelProgressRow} (h : mkLevelProgress st dr = some r) :
    ((r.status = "locked" ∨ r.status = "unlocked") →
      r.completion_time = 0 ∧ r.score = 0 ∧ r.stars = 0 ∧
        r.attempts = 0 ∧ r.best_time = 0)
    ∧ ((r.status = "completed" ∨ r.status = "perfect") →
        0 < r.completion_time ∧ 0 < r.score ∧ 0 < r.stars ∧
          0 < r.attempts ∧ 0 < r.best_time) := by
  unfold mkLevelProgress at h
  cases hc : randChoice (st.characters.map (·.id)) dr.charS with
  | none => rw [hc] at h; cases h
  | some cid =>
    cases hl : randChoice (st.levels.map (·.id)) dr.levelS with
    | none => rw [hc, hl] at h; cases h
    | some lid =>
      rw [hc, hl] at h
      simp only at h
      split_ifs at h with h1
      · cases h
        constructor
        · intro h1'
          rcases h1 with h1 | h1 <;> rcases h1' with h1' | h1' <;>
            simp_all
        · intro _
          have h60 : 60 ≤ randint 60 600 dr.ctS := randint_ge _ _ _
          have h1000 : 1000 ≤ randint 1000 10000 dr.scoreS :=
            randint_ge _ _ _
          have hst : 1 ≤ randint 1 3 dr.starsS := randint_ge _ _ _
          have hat : 1 ≤ randint 1 5 dr.attS := randint_ge _ _ _
          refine ⟨?_, ?_, ?_, ?_, ?_⟩
          · show 0 < randint 60 600 dr.ctS
            omega
          · show 0 < randint 1000 10000 dr.scoreS
            omega
          · show 0 < randint 1 3 dr.starsS
            omega
          · show 0 < randint 1 5 dr.attS
            omega
          · show 0 < randint 60 600 dr.ctS
            omega
      · cases h
        exact ⟨fun _ => ⟨rfl, rfl, rfl, rfl, rfl⟩,
          fun h2 => absurd h2 h1⟩

/-- Claim C7: every `character_level_progress` row written by
`generate_sample_level_progress` has all five numeric fields equal to 0
when its status is `locked` or `unlocked`, and all five strictly
positive when its status is `completed` or `perfect`. -/
theorem claim_C7 (st : Store) (count : Nat) (d : Nat → LPDraw)
    (rows : List LevelProgressRow)
    (h : generate_sample_level_progress st count d = .ok rows) :
    ∀ r ∈ rows,
      ((r.status = "locked" ∨ r.status = "unlocked") →
        r.completion_time = 0 ∧ r.score = 0 ∧ r.stars = 0 ∧
          r.attempts = 0 ∧ r.best_time = 0)
      ∧ ((r.status = "completed" ∨ r.status = "perfect") →
          0 < r.completion_time ∧ 0 < r.score ∧ 0 < r.stars ∧
            0 < r.attempts ∧ 0 < r.best_time) := by
  unfold generate_sample_level_progress at h
  intro r hr
  obtain ⟨i, _, hfi⟩ := exceptMapList_ok_mem h r hr
  cases hmk : mkLevelProgress st (d i) with
  | none => rw [hmk] at hfi; cases hfi
  | some r' =>
    rw [hmk] at hfi
    cases hfi
    exact mkLevelProgress_invariant hmk

/-- Witness for claim C7 at a one-character/one-level store. -/
theorem claim_C7_witness :
    ((lpWitnessRow.status = "locked" ∨
        lpWitnessRow.status = "unlocked") →
      lpWitnessRow.completion_time = 0 ∧ lpWitnessRow.score = 0 ∧
        lpWitnessRow.stars = 0 ∧ lpWitnessRow.attempts = 0 ∧
        lpWitnessRow.best_time = 0)
    ∧ ((lpWitnessRow.status = "completed" ∨
        lpWitnessRow.status = "perfect") →
        0 < lpWitnessRow.completion_time ∧ 0 < lpWitnessRow.score ∧
          0 < lpWitnessRow.stars ∧ 0 < lpWitnessRow.attempts ∧
          0 < lpWitnessRow.best_time) :=
  claim_C7 lpStore 1 (fun _ => dfltLPDraw) [lpWitnessRow] (by rfl)
    lpWitnessRow (List.mem_singleton.mpr rfl)

/-- Claim C8: `generate_sample_save_data` writes zero rows (returning
normally) whenever no player-flagged character exists, and every row it
does write references a player-flagged character of the store. -/
theorem claim_C8 (st : Store) (count : Nat) (d : Nat → SaveDraw) :
    (st.characters.filter (·.is_player) = [] →
      generate_sample_save_data st count d = [])
    ∧ ∀ r ∈ generate_sample_save_data st count d,
        ∃ ch ∈ st.characters, ch.is_player = true ∧
          r.character_id = ch.id := by
  constructor
  · intro hp
    unfold generate_sample_save_data
    rw [hp]
    rfl
  · intro r hr
    unfold generate_sample_save_data at hr
    by_cases hp : (st.characters.filter (·.is_player)).isEmpty
    · rw [if_pos hp] at hr
      cases hr
    · rw [if_neg hp] at hr
      obtain ⟨i, _, rfl⟩ := List.mem_map.mp hr
      have hne : st.characters.filter (·.is_player) ≠ [] := by
        intro hc
        rw [hc] at hp
        exact hp rfl
      have hmem : (randChoice (st.characters.filter (·.is_player))
          ((d i).pickS)).getD dfltCharacter ∈
            st.characters.filter (·.is_player) :=
        randChoice_getD_mem _ _ hne
      obtain ⟨hchars, hplay⟩ := List.mem_filter.mp hmem
      exact ⟨_, hchars, hplay, rfl⟩

/-- Witness for claim C8: the skip branch at the empty store and the
reference property at a one-player store. -/
theorem claim_C8_witness :
    (emptyStore.characters.filter (·.is_player) = [] ∧
      generate_sample_save_data emptyStore 3 (fun _ => dfltSaveDraw) =
        [])
    ∧ ∃ ch ∈ playerStore.characters, ch.is_player = true ∧
        (mkSaveSlot (playerStore.characters.filter (·.is_player)) 0
          dfltSaveDraw).character_id = ch.id :=
  ⟨⟨rfl, (claim_C8 emptyStore 3 (fun _ => dfltSaveDraw)).1 rfl⟩,
   (claim_C8 playerStore 1 (fun _ => dfltSaveDraw)).2
     (mkSaveSlot (playerStore.characters.filter (·.is_player)) 0
       dfltSaveDraw) (by decide)⟩

/-- Claim C9: `test_table_structure` is idempotent as a pure function of
the store's table set — it only reads, so a second run against the
store state left by the first returns the identical report (same
missing set, same extra set, same pass flag). -/
theorem claim_C9 (existing : List String) :
    (test_table_structure ((test_table_structure existing).2)).1 =
      (test_table_structure existing).1 := rfl
